import Mathlib

/-!
Verification of the poker GTO tip server (`gpt_poker_server.py`).

The development shallowly embeds the two pieces of logic of the server:

* `build_gto_prompt` — the prompt builder turning a client game state into a
  prompt string.  Python locals become Lean `let`s; Python exceptions
  (`IndexError` on `""[-1]`, `UnboundLocalError` on the conditionally
  assigned `is_connected`) become `Option.none`, so the embedding returns
  `Option String`.
* `gto_tip` — the `/gto_tip` request handler.  The outbound HTTP call to the
  completion backend is abstracted by a `BackendOutcome` parameter (network
  failure, or a response with a status code and an optionally-parsed JSON
  body); the try/except of the handler is the fall-through to the fixed
  error response `(500, ("tip", "Error generating tip"))`.

Card tokens, prompt text and tips are Lean `String`s; Python `str.strip()`
and `str.replace(tag, "")` are modelled character-exactly by `pyStrip` and
`strReplaceDel` below.
-/

namespace PokerHacker

set_option maxRecDepth 16384

/-- A client game state, as the JSON body of a `/gto_tip` request.  Every
field is optional; `none` models a key absent from the JSON object
(`data.get(...)` in the source). -/
structure GameState where
  hand : Option (List String) := none
  community : Option (List String) := none
  opponent_actions : Option (List String) := none
  pot : Option Int := none
  chips : Option Int := none
  stage : Option String := none
  position : Option String := none
  current_bet : Option Int := none
  num_players : Option Int := none

/-- `data.get("hand", []) or ["unknown", "unknown"]`: an absent or empty
hand list falls back to the sentinel pair, so the defaulted hand is never
empty. -/
def defaultHand (h : Option (List String)) : List String :=
  match h with
  | none => ["unknown", "unknown"]
  | some [] => ["unknown", "unknown"]
  | some (c :: cs) => c :: cs

/-- `card[:-1]`: the card token with its trailing suit character stripped
(total; yields `""` on `""`, as in Python). -/
def cardRank (card : String) : String := String.mk card.data.dropLast

/-- `card[-1]`: the trailing suit character; `none` models the
`IndexError` Python raises on an empty token. -/
def cardSuit (card : String) : Option Char := card.data.getLast?

/-- The `rank_values` dictionary lookup `rank_values.get(r, 0)`. -/
def rank_values (r : String) : Nat :=
  if r = "2" then 2 else if r = "3" then 3 else if r = "4" then 4
  else if r = "5" then 5 else if r = "6" then 6 else if r = "7" then 7
  else if r = "8" then 8 else if r = "9" then 9 else if r = "10" then 10
  else if r = "J" then 11 else if r = "Q" then 12 else if r = "K" then 13
  else if r = "A" then 14 else 0

/-- Lines 45–59 of the source: the classification body once both suit
characters and both numeric rank values are in hand. -/
def classifyKnown (suit1 suit2 : Char) (r1 r2 : Nat) : String × String × Option Bool :=
  let is_suited : Bool := suit1 = suit2
  let hand_type := if is_suited then "suited" else "offsuit"
  let gap := max r1 r2 - min r1 r2
  let is_connected : Bool := gap ≤ 2
  let high_rank := max r1 r2
  let hand_strength :=
    if high_rank ≥ 12 ∨ (is_suited ∧ is_connected) then "strong"
    else if high_rank ≥ 9 ∨ (is_connected ∧ gap ≤ 1) then "medium"
    else "weak"
  (hand_type, hand_strength, some is_connected)

/-- Lines 36–59 of the source: hand analysis.  Returns
`(hand_type, hand_strength, is_connected)`.  The third component is
`none` exactly when the Python local `is_connected` is left unassigned
(the guarded branch did not run); `Option.none` overall models the
`IndexError` on an empty card token inside the branch. -/
def handTypeStrength (hand : List String) : Option (String × String × Option Bool) :=
  if hand.length = 2 ∧ hand.headD "" ≠ "unknown" then
    match cardSuit (hand.headD ""), cardSuit ((hand.drop 1).headD "") with
    | some suit1, some suit2 =>
      some (classifyKnown suit1 suit2 (rank_values (cardRank (hand.headD "")))
        (rank_values (cardRank ((hand.drop 1).headD ""))))
    | _, _ => none
  else some ("unknown", "unknown", none)

/-- The suit-extraction loop of lines 67–69: `card[-1]` for each card of
`hand + community`; fails (like the loop) on the first empty token. -/
def mapOptSuit : List String → Option (List Char)
  | [] => some []
  | c :: rest =>
    match cardSuit c, mapOptSuit rest with
    | some s, some ss => some (s :: ss)
    | _, _ => none

/-- The keys of the `suit_counts` dict in insertion order: each suit at
its first occurrence. -/
def dedupKeys (l : List Char) : List Char :=
  l.foldl (fun acc c => if acc.contains c then acc else acc ++ [c]) []

/-- `max(suit_counts.values(), default=0)`. -/
def suitCountsMax (suits : List Char) : Nat :=
  ((dedupKeys suits).map (fun s => suits.count s)).foldl max 0

/-- Line 71: the candidate flush suit — the first suit (in dict insertion
order) attaining the maximum count, provided that maximum is at least 3. -/
def flushSuitOf (suits : List Char) : Option Char :=
  if suitCountsMax suits ≥ 3 then
    ((dedupKeys suits).filter (fun s => suits.count s = suitCountsMax suits)).head?
  else none

/-- Lines 61–76 of the source: the `flush_potential` string.  `none`
models the `IndexError` on an empty card token while counting suits. -/
def flushPotential (hand community : List String) : Option String :=
  if community ≠ [] ∧ hand.length = 2 ∧ hand.headD "" ≠ "unknown" then
    match mapOptSuit (hand ++ community) with
    | some suits =>
      let max_suit_count := suitCountsMax suits
      let flush_suit := flushSuitOf suits
      let fp1 : String :=
        match flush_suit with
        | some fs =>
          if max_suit_count ≥ 4 then
            "flush draw with " ++ toString max_suit_count ++ " " ++ String.singleton fs ++ " cards"
          else "none"
        | none => "none"
      let fp2 : String :=
        match flush_suit with
        | some fs =>
          if cardSuit (hand.headD "") = some fs ∨ cardSuit ((hand.drop 1).headD "") = some fs then
            "you have a " ++ fp1
          else fp1
        | none => fp1
      some fp2
    | none => none
  else some "none"

/-- Lines 80–84: the list of `"Player {i}: {action}"` strings for the
non-empty entries, keeping original indices. -/
def formatActions (l : List String) : List String :=
  (l.enum.filter (fun p => p.2 ≠ "")).map
    (fun p => "Player " ++ toString p.1 ++ ": " ++ p.2)

/-- Lines 78–85: the formatted opponent-actions string. -/
def opponentActionsStr (opponent_actions : List String) : String :=
  if opponent_actions ≠ [] then
    let formatted_actions := formatActions opponent_actions
    if formatted_actions ≠ [] then String.intercalate "; " formatted_actions
    else "None"
  else "None"

/-- Python `str.strip()`: drop leading and trailing whitespace. -/
def pyStrip (s : String) : String :=
  String.mk (((s.data.dropWhile Char.isWhitespace).reverse.dropWhile Char.isWhitespace).reverse)

/-- The f-string template of lines 88–105, with the conditional
connector label already evaluated into `connector_label`. -/
def promptText (num_players : Int) (hand_str hand_type hand_strength connector_label
    community_str flush_potential stage position : String) (pot chips : Int)
    (opponent_actions_str : String) (current_bet : Int) : String :=
  "/no_think\n" ++
  "You are a GTO (Game Theory Optimal) poker coach for No-Limit Hold\x27em with " ++
  toString num_players ++ " players.\n" ++
  "Game state:\n" ++
  "- Your hand: " ++ hand_str ++ " (" ++ hand_type ++ ", " ++ hand_strength ++ " " ++
  connector_label ++ ")\n" ++
  "- Community cards: " ++ community_str ++ " (" ++ flush_potential ++ ")\n" ++
  "- Stage: " ++ stage ++ "\n" ++
  "- Position: " ++ position ++ "\n" ++
  "- Pot size: " ++ toString pot ++ "\n" ++
  "- Your chips: " ++ toString chips ++ "\n" ++
  "- Opponent actions: " ++ opponent_actions_str ++ "\n" ++
  "- Current bet to call: " ++ toString current_bet ++ "\n" ++
  "- Number of players: " ++ toString num_players ++ "\n" ++
  "Provide a **short, single-sentence tip** on the best play: bet, call, raise, or fold.\n" ++
  "Calculate pot odds and explain how they apply to the current scenario.\n" ++
  "Explain the reason for the tip, considering hand strength, position, and number of opponents.\n" ++
  "If raising, specify how you determined the raise amount.\n" ++
  "Explain any poker jargon used in simple terms.\n" ++
  "/no_think"

/-- `build_gto_prompt(data)` (lines 24–106).  Returns `none` exactly when
the Python function raises: an `IndexError` on `""[-1]`, or the
`UnboundLocalError` when the f-string reads `is_connected` although the
hand-analysis branch never assigned it (sentinel hand, or a hand whose
length is not 2). -/
def build_gto_prompt (data : GameState) : Option String :=
  let hand := defaultHand data.hand
  let community := data.community.getD []
  let opponent_actions := data.opponent_actions.getD []
  let pot := data.pot.getD 0
  let chips := data.chips.getD 0
  let stage := data.stage.getD "Unknown"
  let position := data.position.getD "SB"
  let current_bet := data.current_bet.getD 0
  let num_players := data.num_players.getD 2
  let hand_str := if hand.headD "" ≠ "unknown" then String.intercalate ", " hand
                  else "unknown"
  match handTypeStrength hand with
  | none => none
  | some (hand_type, hand_strength, is_connected) =>
    let community_str := if community ≠ [] then String.intercalate ", " community
                         else "none"
    match flushPotential hand community with
    | none => none
    | some flush_potential =>
      let opponent_actions_str := opponentActionsStr opponent_actions
      match is_connected with
      | none => none
      | some b =>
        let connector_label := if b then "connector" else "non-connector"
        some (pyStrip (promptText num_players hand_str hand_type hand_strength
          connector_label community_str flush_potential stage position pot chips
          opponent_actions_str current_bet))

/-- Delete every occurrence of the non-empty pattern `p :: ps` from a
character list, scanning left to right without overlap — the semantics of
Python `s.replace(pat, "")`.  Structural recursion on a fuel argument
(one unit per character examined); a fuel of the list length always
suffices, and exhausted fuel returns the remaining list unchanged. -/
def delOccFuel (p : Char) (ps : List Char) : Nat → List Char → List Char
  | 0, l => l
  | _ + 1, [] => []
  | fuel + 1, c :: rest =>
    if (p :: ps).isPrefixOf (c :: rest) then
      delOccFuel p ps fuel ((c :: rest).drop (p :: ps).length)
    else c :: delOccFuel p ps fuel rest

/-- Python `s.replace(pat, "")` on strings (for an empty pattern the
deletion is a no-op, as in Python). -/
def strReplaceDel (s pat : String) : String :=
  match pat.data with
  | [] => s
  | p :: ps => String.mk (delOccFuel p ps s.data.length s.data)

/-- Does `pat` occur as a contiguous substring of `l`? -/
def hasSub (pat : List Char) : List Char → Bool
  | [] => pat.isPrefixOf []
  | c :: rest => pat.isPrefixOf (c :: rest) || hasSub pat rest

/-- Line 133: the `tags_to_remove` list, in source order. -/
def tags_to_remove : List String := ["/think", "</think>", "/no_think", "<", ">"]

/-- Lines 133–135: `tip = tip.replace(tag, "").strip()` folded over the
tag list. -/
def sanitize (tip : String) : String :=
  tags_to_remove.foldl (fun t tag => pyStrip (strReplaceDel t tag)) tip

/-- One element of the backend `choices` array; `text := none` models a
choice object with no `"text"` key. -/
structure Choice where
  text : Option String := none

/-- The parsed JSON body of the backend response; `choices := none`
models a body with no `"choices"` key. -/
structure RawOutput where
  choices : Option (List Choice) := none

/-- Line 130: `raw_output.get("choices", [{}])[0].get("text", "").strip()`.
`none` models the `IndexError` raised when `"choices"` is present but
empty; an absent `"choices"` key defaults to `[{}]` and an absent
`"text"` key to `""`. -/
def extract_tip (raw : RawOutput) : Option String :=
  match (raw.choices.getD [{ text := none }]).head? with
  | none => none
  | some c => some (pyStrip (c.text.getD ""))

/-- Outcome of `requests.post` at line 125: either the call itself raises
(connection error), or it yields a response with a status code and a body
that may or may not parse as JSON (`jsonBody = none` models a
`response.json()` failure). -/
inductive BackendOutcome where
  | netError
  | response (status : Nat) (jsonBody : Option RawOutput)

/-- The fixed error response of line 140:
`jsonify({"tip": "Error generating tip"}), 500`. -/
def errorResponse : Nat × String × String := (500, ("tip", "Error generating tip"))

/-- The `/gto_tip` handler (lines 111–140).  `body = none` models a
request whose JSON could not be read (or was `null`, which crashes
`build_gto_prompt` just the same); `backend` abstracts the outbound call.
The result is the HTTP status paired with the single key/value pair of
the JSON response body.  `response.raise_for_status()` raises `HTTPError`
exactly for the client/server error range `400 ≤ status < 600` (any
other status — including the nonconforming but transportable 6xx–9xx
range — falls through); any exception anywhere in the `try` block lands
in the `except` clause returning `errorResponse`. -/
def gto_tip (body : Option GameState) (backend : BackendOutcome) : Nat × String × String :=
  match body with
  | none => errorResponse
  | some data =>
    match build_gto_prompt data with
    | none => errorResponse
    | some _prompt =>
      match backend with
      | .netError => errorResponse
      | .response status jsonBody =>
        if 400 ≤ status ∧ status < 600 then errorResponse
        else
          match jsonBody with
          | none => errorResponse
          | some raw =>
            match extract_tip raw with
            | none => errorResponse
            | some t =>
              let tip := if t = "" then "No tip generated." else t
              (200, ("gto_tip", sanitize tip))

/-- The opponent-actions formatting as worded by the spec: emit
`"Player {index}: {action}"` for each indexed non-empty entry (original
index), join with `"; "`, and produce `"None"` when there are no
non-empty entries.  Stated separately from `opponentActionsStr` so the
code can be compared against the spec wording. -/
def opponentActionsSpec (l : List String) : String :=
  let entries := (l.enum.filter (fun p => p.2 ≠ "")).map
    (fun p => "Player " ++ toString p.1 ++ ": " ++ p.2)
  if entries = [] then "None" else String.intercalate "; " entries

/-- The hand-strength rule as worded by the spec: strong iff
`highRank ≥ 12` or (suited and `gap ≤ 2`); else medium iff
`highRank ≥ 9` or `gap ≤ 1`; else weak. -/
def strengthRuleSpec (r1 r2 : Nat) (suited : Bool) : String :=
  let gap := max r1 r2 - min r1 r2
  let highRank := max r1 r2
  if highRank ≥ 12 ∨ (suited = true ∧ gap ≤ 2) then "strong"
  else if highRank ≥ 9 ∨ gap ≤ 1 then "medium"
  else "weak"

/-- Every `flushPotential` result on a hand whose first card is the
`"unknown"` sentinel is `some "none"`: the guarded flush branch is
skipped. -/
theorem flushPotential_unknown (community : List String) :
    flushPotential ["unknown", "unknown"] community = some "none" := by
  rw [flushPotential, if_neg]
  rintro ⟨-, -, h⟩
  exact h rfl

/-- Claim C1: the spec calls `build_gto_prompt` a total function that
never fails, even on the `["unknown", "unknown"]` sentinel, an
absent/empty hand, or a hand list whose length is not 2.  The code
disagrees: on every input whose hand-analysis branch is skipped, the
prompt f-string reads the never-assigned local `is_connected` and raises
`UnboundLocalError` (modelled as `none`), and an empty card token raises
`IndexError` inside the branch.  This theorem evaluates the code at the
failing inputs: absent hand, empty hand, one-card hand, three-card hand,
and an empty card token. -/
theorem build_gto_prompt_crashes_on_defaulted_or_malformed_hand :
    build_gto_prompt {} = none ∧
    build_gto_prompt { hand := some [] } = none ∧
    build_gto_prompt { hand := some ["As"] } = none ∧
    build_gto_prompt { hand := some ["As", "Kd", "Qh"] } = none ∧
    build_gto_prompt { hand := some ["", "Kd"] } = none := by
  decide

/-- Claim C3: the spec says that with `hand = ["unknown", "unknown"]` the
built prompt contains "Your hand: unknown" and flush text "none".  The
code instead raises `UnboundLocalError` on `is_connected` before the
prompt is produced, for every such game state; the intermediate values it
computed up to that point do match the claim (`hand_type`/`hand_strength`
default to `"unknown"` and the flush text is `"none"`). -/
theorem build_gto_prompt_crashes_on_unknown_sentinel :
    (∀ community opponent_actions pot chips stage position current_bet num_players,
      build_gto_prompt ⟨some ["unknown", "unknown"], community, opponent_actions,
        pot, chips, stage, position, current_bet, num_players⟩ = none) ∧
    handTypeStrength ["unknown", "unknown"] = some ("unknown", "unknown", none) ∧
    flushPotential ["unknown", "unknown"] ["Qh", "Jh", "2c"] = some "none" := by
  refine ⟨?_, rfl, rfl⟩
  intro community opponent_actions pot chips stage position current_bet num_players
  have h2 : handTypeStrength (defaultHand (some ["unknown", "unknown"])) =
      some ("unknown", "unknown", none) := rfl
  simp only [build_gto_prompt, h2, flushPotential_unknown]
  split <;> rfl

/-- Claim C6: with hole cards `["Ah", "Kh"]` and community
`["Qh", "Jh", "2c"]` (four hearts in total, both hole cards hearts), the
flush-potential text is exactly "you have a flush draw with 4 h cards",
and the built prompt contains it. -/
theorem flush_draw_four_hearts_example :
    flushPotential ["Ah", "Kh"] ["Qh", "Jh", "2c"] =
      some "you have a flush draw with 4 h cards" ∧
    hasSub "(you have a flush draw with 4 h cards)".data
      ((build_gto_prompt
        ⟨some ["Ah", "Kh"], some ["Qh", "Jh", "2c"], none, none, none, none, none,
          none, none⟩).getD "").data = true := by
  decide

/-- Claim C2 (counterexample): the spec says that when the maximum
per-suit count over hole + community cards is exactly 3 the flush text
is "none".  With hole cards `["Ah", "Kh"]` and community `["2h"]` the
maximum count is 3, yet the code emits "you have a none": line 75 only
checks that a candidate flush suit exists (count ≥ 3) before prefixing
"you have a " onto the still-default text. -/
theorem flush_three_same_suit_counterexample :
    mapOptSuit (["Ah", "Kh"] ++ ["2h"]) = some ['h', 'h', 'h'] ∧
    suitCountsMax ['h', 'h', 'h'] = 3 ∧
    flushPotential ["Ah", "Kh"] ["2h"] = some "you have a none" ∧
    flushPotential ["Ah", "Kh"] ["2h"] ≠ some "none" := by
  decide

/-- Claim C7: for every `opponent_actions` list the formatted
string agrees with the spec rule, and `["raise", "", "call"]` yields
`"Player 0: raise; Player 2: call"`. -/
theorem opponent_actions_formatting :
    (∀ l : List String, opponentActionsStr l = opponentActionsSpec l) ∧
    opponentActionsStr ["raise", "", "call"] = "Player 0: raise; Player 2: call" := by
  refine ⟨?_, by decide⟩
  intro l
  cases l with
  | nil => rfl
  | cons a as =>
    by_cases h : formatActions (a :: as) = []
    · simp only [opponentActionsStr, opponentActionsSpec, formatActions] at h ⊢
      simp [h]
    · simp only [opponentActionsStr, opponentActionsSpec, formatActions] at h ⊢
      simp [h]

/-- Claim C5: for every two-card known hand, the hand analysis of the code
returns the type `"suited"`/`"offsuit"` by suit equality and the
strength given by `strengthRuleSpec` on the ranks obtained by stripping
the trailing suit character and mapping through `rank_values`; in
particular `["As", "Ks"]` is a strong suited hand and `["7h", "2c"]` is
weak.  (The medium test of the code `is_connected and gap <= 1` collapses to
`gap ≤ 1`, as the spec states.) -/
theorem hand_strength_rule :
    (∀ (c1 c2 : String) (s1 s2 : Char), c1 ≠ "unknown" →
      cardSuit c1 = some s1 → cardSuit c2 = some s2 →
      handTypeStrength [c1, c2] =
        some (if s1 = s2 then "suited" else "offsuit",
          strengthRuleSpec (rank_values (cardRank c1)) (rank_values (cardRank c2))
            (decide (s1 = s2)),
          some (decide (max (rank_values (cardRank c1)) (rank_values (cardRank c2)) -
            min (rank_values (cardRank c1)) (rank_values (cardRank c2)) ≤ 2)))) ∧
    handTypeStrength ["As", "Ks"] = some ("suited", "strong", some true) ∧
    handTypeStrength ["7h", "2c"] = some ("offsuit", "weak", some false) := by
  refine ⟨?_, by decide, by decide⟩
  intro c1 c2 s1 s2 hne hs1 hs2
  have hcond : ([c1, c2].length = 2 ∧ [c1, c2].headD "" ≠ "unknown") := ⟨rfl, hne⟩
  rw [handTypeStrength, if_pos hcond]
  simp only [List.headD, List.drop, hs1, hs2]
  generalize rank_values (cardRank c1) = r1
  generalize rank_values (cardRank c2) = r2
  simp only [classifyKnown, strengthRuleSpec, Option.some.injEq, Prod.mk.injEq]
  refine ⟨?_, ?_, trivial⟩
  · by_cases h : s1 = s2 <;> simp [h]
  · by_cases h : s1 = s2 <;> simp only [h, decide_eq_true_eq] <;>
      split_ifs <;> simp_all <;> omega

/-- Claim C8: the sanitize step of the handler removes the literal tags
`/think`, `</think>`, `/no_think`, `<`, `>` in that order with a trim
after each removal, so a backend text of `"  /no_think Fold here. "`
produces the tip `"Fold here."` — both at the sanitize step and
end-to-end through the handler. -/
theorem sanitize_tags_example :
    tags_to_remove = ["/think", "</think>", "/no_think", "<", ">"] ∧
    pyStrip "  /no_think Fold here. " = "/no_think Fold here." ∧
    sanitize "/no_think Fold here." = "Fold here." ∧
    gto_tip (some ⟨some ["Ah", "Kd"], some ["2c", "7d", "9s"], none, none, none, none,
        none, none, none⟩)
      (.response 200 (some { choices := some [{ text := some "  /no_think Fold here. " }] })) =
      (200, ("gto_tip", "Fold here.")) := by
  decide

/-- Witness for `hand_strength_rule` at the concrete suited connector
`["9h", "8h"]`. -/
theorem hand_strength_rule_witness :
    handTypeStrength ["9h", "8h"] =
      some (if ('h' : Char) = 'h' then "suited" else "offsuit",
        strengthRuleSpec (rank_values (cardRank "9h")) (rank_values (cardRank "8h"))
          (decide (('h' : Char) = 'h')),
        some (decide (max (rank_values (cardRank "9h")) (rank_values (cardRank "8h")) -
          min (rank_values (cardRank "9h")) (rank_values (cardRank "8h")) ≤ 2))) :=
  hand_strength_rule.1 "9h" "8h" 'h' 'h' (by decide) rfl rfl

/-- Claim C2 (as amended): when the hole cards are known, the community
is non-empty and the maximum per-suit count over hole + community cards
is exactly 3, the flush-potential text is `"none"` only when neither
hole card carries the candidate flush suit; when a hole card does carry
it, the text is the degenerate `"you have a none"`.  Flush-draw
commentary proper (`"flush draw with ..."`) still requires 4+ cards of
one suit. -/
theorem flush_maxcount_three_text :
    ∀ (c1 c2 : String) (community : List String) (suits : List Char),
      community ≠ [] → c1 ≠ "unknown" →
      mapOptSuit ([c1, c2] ++ community) = some suits →
      suitCountsMax suits = 3 →
      flushPotential [c1, c2] community =
        some (match flushSuitOf suits with
          | some fs =>
            if cardSuit c1 = some fs ∨ cardSuit c2 = some fs then "you have a none"
            else "none"
          | none => "none") := by
  intro c1 c2 community suits hcomm hne hmap hmax
  have hcond : (community ≠ [] ∧ [c1, c2].length = 2 ∧ [c1, c2].headD "" ≠ "unknown") :=
    ⟨hcomm, rfl, hne⟩
  rw [flushPotential, if_pos hcond]
  simp only [hmap, List.headD, List.drop, hmax]
  cases hfs : flushSuitOf suits with
  | none => simp
  | some fs => simp

/-- Witness for `flush_maxcount_three_text`: hand `["Ah", "Kd"]`,
community `["2h", "3h", "4c"]`, three hearts with the first hole card a
heart. -/
theorem flush_maxcount_three_text_witness :
    flushPotential ["Ah", "Kd"] ["2h", "3h", "4c"] =
      some (match flushSuitOf ['h', 'd', 'h', 'h', 'c'] with
        | some fs =>
          if cardSuit "Ah" = some fs ∨ cardSuit "Kd" = some fs then "you have a none"
          else "none"
        | none => "none") :=
  flush_maxcount_three_text "Ah" "Kd" ["2h", "3h", "4c"] ['h', 'd', 'h', 'h', 'c']
    (by decide) (by decide) (by decide) (by decide)

/-- Deleting a pattern that does not occur leaves the character list
unchanged, for any amount of fuel. -/
theorem delOccFuel_of_not_hasSub (p : Char) (ps : List Char) :
    ∀ (fuel : Nat) (l : List Char), hasSub (p :: ps) l = false →
      delOccFuel p ps fuel l = l := by
  intro fuel
  induction fuel with
  | zero => intro l _; rfl
  | succ n ih =>
    intro l hl
    cases l with
    | nil => rfl
    | cons c rest =>
      rw [hasSub, Bool.or_eq_false_iff] at hl
      rw [delOccFuel, if_neg (by simp [hl.1]), ih rest hl.2]

/-- `s.replace(pat, "")` is the identity when `pat` does not occur in
`s`. -/
theorem strReplaceDel_of_not_hasSub (s pat : String)
    (h : hasSub pat.data s.data = false) : strReplaceDel s pat = s := by
  rw [strReplaceDel]
  cases hp : pat.data with
  | nil => rfl
  | cons p ps =>
    rw [hp] at h
    show String.mk (delOccFuel p ps s.data.length s.data) = s
    rw [delOccFuel_of_not_hasSub p ps s.data.length s.data h]

/-- Claim C9: the sanitize step is a fixed point on clean text — any
string containing none of the literal tags of `tags_to_remove` and
bearing no leading or trailing whitespace passes through `sanitize`
unchanged, so sanitizing twice equals sanitizing once. -/
theorem sanitize_fixed_on_clean :
    ∀ s : String, (∀ tag ∈ tags_to_remove, hasSub tag.data s.data = false) →
      pyStrip s = s → sanitize s = s ∧ sanitize (sanitize s) = sanitize s := by
  intro s htags hstrip
  have step : ∀ tag ∈ tags_to_remove, pyStrip (strReplaceDel s tag) = s := by
    intro tag htag
    rw [strReplaceDel_of_not_hasSub s tag (htags tag htag), hstrip]
  have h1 : sanitize s = s := by
    show pyStrip (strReplaceDel (pyStrip (strReplaceDel (pyStrip (strReplaceDel
      (pyStrip (strReplaceDel (pyStrip (strReplaceDel s "/think")) "</think>"))
      "/no_think")) "<")) ">") = s
    rw [step "/think" (by decide), step "</think>" (by decide),
      step "/no_think" (by decide), step "<" (by decide), step ">" (by decide)]
  exact ⟨h1, by rw [h1, h1]⟩

/-- Witness for `sanitize_fixed_on_clean` on a concrete clean tip. -/
theorem sanitize_fixed_on_clean_witness :
    sanitize "Raise to 3x the big blind." = "Raise to 3x the big blind." ∧
    sanitize (sanitize "Raise to 3x the big blind.") =
      sanitize "Raise to 3x the big blind." :=
  sanitize_fixed_on_clean "Raise to 3x the big blind." (by decide) (by decide)

/-- Claim C4 (counterexample): the claim counts every non-2xx backend
status among the exception sources that force the generic 500 response,
but `requests.raise_for_status` raises only for statuses 400–599.  A
backend status of 700 (outside 2xx, yet transportable by `http.client`,
which accepts 100–999) with a parsable body flows through to the
success path: the handler returns HTTP 200 with the tip, not the fixed
500 body. -/
theorem gto_tip_status_700_counterexample :
    gto_tip (some ⟨some ["Tc", "Td"], none, none, none, none, none, none, none, none⟩)
      (.response 700 (some { choices := some [{ text := some "Call." }] })) =
      (200, ("gto_tip", "Call.")) ∧
    gto_tip (some ⟨some ["Tc", "Td"], none, none, none, none, none, none, none, none⟩)
      (.response 700 (some { choices := some [{ text := some "Call." }] })) ≠
      errorResponse := by
  decide

/-- Claim C4 (as amended): every `/gto_tip` response is either HTTP 200
with a one-key JSON body `{"gto_tip": <tip>}` or HTTP 500 with exactly
`{"tip": "Error generating tip"}`; an unreadable request body, a backend
network failure, a backend status in the error range 400–599 (where
`raise_for_status` raises), or an unparsable backend body each force the
fixed 500 response, so no backend error detail ever reaches the caller.
(A non-2xx status outside 400–599 does not itself raise; with a parsable
body it reaches the success path.) -/
theorem gto_tip_response_dichotomy :
    ∀ (body : Option GameState) (backend : BackendOutcome),
      ((gto_tip body backend).1 = 200 ∧ (gto_tip body backend).2.1 = "gto_tip" ∨
        gto_tip body backend = errorResponse) ∧
      (backend = .netError → gto_tip body backend = errorResponse) ∧
      (∀ status jsonBody, backend = .response status jsonBody →
        400 ≤ status → status < 600 → gto_tip body backend = errorResponse) ∧
      (∀ status, backend = .response status none → gto_tip body backend = errorResponse) ∧
      (body = none → gto_tip body backend = errorResponse) ∧
      errorResponse = (500, ("tip", "Error generating tip")) := by
  intro body backend
  refine ⟨?_, ?_, ?_, ?_, ?_, rfl⟩
  · cases body with
    | none => exact Or.inr rfl
    | some data =>
      cases hb : build_gto_prompt data with
      | none => exact Or.inr (by simp [gto_tip, hb])
      | some p =>
        cases backend with
        | netError => exact Or.inr (by simp [gto_tip, hb])
        | response status jsonBody =>
          by_cases hs : 400 ≤ status ∧ status < 600
          · exact Or.inr (by simp [gto_tip, hb, hs])
          · cases jsonBody with
            | none => exact Or.inr (by simp [gto_tip, hb, hs])
            | some raw =>
              cases ht : extract_tip raw with
              | none => exact Or.inr (by simp [gto_tip, hb, hs, ht])
              | some t => exact Or.inl (by simp [gto_tip, hb, hs, ht])
  · rintro rfl
    cases body with
    | none => rfl
    | some data => cases hb : build_gto_prompt data <;> simp [gto_tip, hb]
  · rintro status jsonBody rfl hs1 hs2
    cases body with
    | none => rfl
    | some data =>
      cases hb : build_gto_prompt data with
      | none => simp [gto_tip, hb]
      | some p => simp [gto_tip, hb, hs1, hs2]
  · rintro status rfl
    cases body with
    | none => rfl
    | some data =>
      cases hb : build_gto_prompt data with
      | none => simp [gto_tip, hb]
      | some p =>
        by_cases hs : 400 ≤ status ∧ status < 600 <;> simp [gto_tip, hb, hs]
  · rintro rfl
    rfl

/-- Witness for `gto_tip_response_dichotomy`: a refused backend
connection, and a 503 backend status, each yield the fixed 500 error
body. -/
theorem gto_tip_response_dichotomy_witness :
    gto_tip (some ⟨some ["Jc", "Jd"], none, none, none, none, none, none, none, none⟩)
      .netError = errorResponse ∧
    gto_tip (some ⟨some ["Jc", "Jd"], none, none, none, none, none, none, none, none⟩)
      (.response 503 (some { choices := some [{ text := some "x" }] })) = errorResponse :=
  ⟨(gto_tip_response_dichotomy
      (some ⟨some ["Jc", "Jd"], none, none, none, none, none, none, none, none⟩)
      .netError).2.1 rfl,
   (gto_tip_response_dichotomy
      (some ⟨some ["Jc", "Jd"], none, none, none, none, none, none, none, none⟩)
      (.response 503 (some { choices := some [{ text := some "x" }] }))).2.2.1
      503 (some { choices := some [{ text := some "x" }] }) rfl (by decide) (by decide)⟩

/-- Claim C10: at the extraction step, a backend body whose `"choices"`
key holds an empty array makes `choices[0]` raise, so the caller gets
the generic 500 error; a body with no `"choices"` key at all, or whose
first choice has no `"text"` field, is tolerated and yields HTTP 200
with the `"No tip generated."` placeholder. -/
theorem choices_empty_vs_absent :
    ∀ (g : GameState) (p : String), build_gto_prompt g = some p →
      (∀ status : Nat, status < 400 →
        gto_tip (some g) (.response status (some { choices := some [] })) = errorResponse) ∧
      gto_tip (some g) (.response 200 (some { choices := none })) =
        (200, ("gto_tip", "No tip generated.")) ∧
      gto_tip (some g) (.response 200 (some { choices := some [{ text := none }] })) =
        (200, ("gto_tip", "No tip generated.")) := by
  intro g p hb
  have hempty : extract_tip { choices := some [] } = none := rfl
  have habsent : extract_tip { choices := none } = some "" := rfl
  have hnotext : extract_tip { choices := some [{ text := none }] } = some "" := rfl
  refine ⟨?_, ?_, ?_⟩
  · intro status hst
    have hs : ¬ 400 ≤ status := by omega
    simp [gto_tip, hb, hs, hempty]
  · have hs : ¬ 400 ≤ 200 := by omega
    simp only [gto_tip, hb, if_neg hs, habsent]
    rfl
  · have hs : ¬ 400 ≤ 200 := by omega
    simp only [gto_tip, hb, if_neg hs, hnotext]
    rfl

/-- Witness for `choices_empty_vs_absent` on a concrete valid game
state. -/
theorem choices_empty_vs_absent_witness :
    gto_tip (some ⟨some ["Qs", "Qd"], none, none, none, none, none, none, none, none⟩)
      (.response 200 (some { choices := some [] })) = errorResponse ∧
    gto_tip (some ⟨some ["Qs", "Qd"], none, none, none, none, none, none, none, none⟩)
      (.response 200 (some { choices := none })) =
      (200, ("gto_tip", "No tip generated.")) :=
  have h := choices_empty_vs_absent
    ⟨some ["Qs", "Qd"], none, none, none, none, none, none, none, none⟩ _ rfl
  ⟨h.1 200 (by omega), h.2.1⟩

end PokerHacker
